import Mathlib

/-!
Shallow embedding of the conversation persistence / session subsystem of the
`cs` repository (src/cs/database/repositories/conversation_repo.py,
src/cs/database/models/entities.py, src/cs/chat/services.py,
src/cs/ai/gemini_client.py).

Modelling conventions:
* The SQLite storage is modelled as in-memory lists of rows.  `DATETIME
  DEFAULT CURRENT_TIMESTAMP` columns are modelled by an explicit `now : Nat`
  argument passed to every mutating operation (second granularity makes
  timestamp ties possible, which is why insertion order matters).
* `AUTOINCREMENT` row ids are modelled by the `nextId` counter (SQLite rowids
  start at 1).
* Python `ValueError` and the SQLite `CHECK` constraint violation are
  modelled by `Except DBError`; in the source every failed statement is
  rolled back by the connection context manager, so an error leaves the
  state unchanged (the caller keeps the old `DB`).
* `ORDER BY timestamp ASC` on the `conversations` table is served through
  the `idx_session_timestamp (session_id, timestamp)` index, whose scan
  yields rows of equal timestamp in rowid order; we model it as a sort by
  the lexicographic key `(timestamp, id)`.  `ORDER BY created_at DESC` on
  `sessions` is modelled as a stable insertion sort by descending
  `created_at` (ties keep table order, matching the index scan).
* Python truthiness: `not s` on a string is `s = ""`, `if limit:` is false
  exactly for `None` and `0`; SQLite treats a negative `LIMIT` as "no
  limit".
-/

/-- A row of the `sessions` table (`session_name` is nullable). -/
structure SessionRow where
  session_id : String
  session_name : Option String
  created_at : Nat
  updated_at : Nat
deriving Repr, DecidableEq

/-- A row of the `conversations` table. -/
structure MessageRow where
  id : Nat
  session_id : String
  role : String
  content : String
  timestamp : Nat
deriving Repr, DecidableEq

/-- The whole SQLite database: the two tables plus the AUTOINCREMENT counter. -/
structure DB where
  sessions : List SessionRow
  conversations : List MessageRow
  nextId : Nat
deriving Repr, DecidableEq

/-- The freshly initialised database (`init_database` creates empty tables). -/
def emptyDB : DB := { sessions := [], conversations := [], nextId := 1 }

/-- Errors surfaced by repository operations: `ValueError` for empty required
arguments, and the SQLite `CHECK (role IN ('user', 'assistant'))` violation. -/
inductive DBError where
  | invalidArgument (msg : String)
  | checkViolation (msg : String)
deriving Repr, DecidableEq

/-- The `Session` dataclass of `entities.py`; `message_count` defaults to 0. -/
structure Session where
  session_id : String
  session_name : String
  created_at : String
  updated_at : String
  message_count : Nat := 0
deriving Repr, DecidableEq

/-- One element of the list returned by `get_conversation_history`
(the dict `{"role": ..., "content": ..., "timestamp": ...}`). -/
structure HistoryEntry where
  role : String
  content : String
  timestamp : Nat
deriving Repr, DecidableEq

/-- `ConversationRepository.create_session`: rejects an empty or
whitespace-only id, then `INSERT OR IGNORE` into `sessions`. -/
def create_session (db : DB) (now : Nat) (session_id : String)
    (session_name : Option String := none) : Except DBError DB :=
  if session_id = "" ∨ session_id.trim = "" then
    .error (.invalidArgument "Session ID cannot be empty")
  else if db.sessions.any (fun r => r.session_id = session_id) then
    .ok db
  else
    .ok { db with
          sessions := db.sessions ++
            [{ session_id := session_id, session_name := session_name,
               created_at := now, updated_at := now }] }

/-- `ConversationRepository.update_session_name`: rejects empty id or name,
then `UPDATE sessions SET session_name = ?, updated_at = CURRENT_TIMESTAMP
WHERE session_id = ?` (a missing session is silently a no-op). -/
def update_session_name (db : DB) (now : Nat) (session_id session_name : String) :
    Except DBError DB :=
  if session_id = "" ∨ session_name = "" then
    .error (.invalidArgument "Session ID and name cannot be empty")
  else
    .ok { db with
          sessions := db.sessions.map fun r =>
            if r.session_id = session_id then
              { r with session_name := some session_name, updated_at := now }
            else r }

/-- The `row[1] or row[0]` idiom of the source: a NULL or empty stored name
falls back to the session id. -/
def displayName (stored : Option String) (session_id : String) : String :=
  match stored with
  | none => session_id
  | some n => if n = "" then session_id else n

/-- `ConversationRepository.get_session_info`: empty id short-circuits to
`None`; otherwise the first matching row is turned into a `Session` with the
`message_count` field left at its dataclass default. -/
def get_session_info (db : DB) (session_id : String) : Option Session :=
  if session_id = "" then none
  else
    (db.sessions.find? (fun r => r.session_id = session_id)).map fun r =>
      { session_id := r.session_id,
        session_name := displayName r.session_name r.session_id,
        created_at := toString r.created_at,
        updated_at := toString r.updated_at }

/-- `ConversationRepository.add_message`: rejects empty id, empty role or a
`None` content (`content is None`); then, in one transaction, `INSERT OR
IGNORE` the session row and insert the message.  A role outside
`{'user', 'assistant'}` violates the table's CHECK constraint and the whole
transaction (including the session insert) is rolled back. -/
def add_message (db : DB) (now : Nat) (session_id role : String)
    (content : Option String) : Except DBError DB :=
  if session_id = "" ∨ role = "" ∨ content = none then
    .error (.invalidArgument "Session ID, role, and content are required")
  else if ¬ (role = "user" ∨ role = "assistant") then
    .error (.checkViolation "CHECK constraint failed: role IN (user, assistant)")
  else
    match content with
    | none => .error (.invalidArgument "Session ID, role, and content are required")
    | some c =>
      let sessions1 :=
        if db.sessions.any (fun r => r.session_id = session_id) then db.sessions
        else db.sessions ++
          [{ session_id := session_id, session_name := none,
             created_at := now, updated_at := now }]
      .ok { sessions := sessions1,
            conversations := db.conversations ++
              [{ id := db.nextId, session_id := session_id, role := role,
                 content := c, timestamp := now }],
            nextId := db.nextId + 1 }

/-- Order in which the `idx_session_timestamp` index yields message rows:
timestamp ascending, ties in rowid order. -/
def msgLe (a b : MessageRow) : Prop :=
  a.timestamp < b.timestamp ∨ (a.timestamp = b.timestamp ∧ a.id ≤ b.id)

instance : DecidableRel msgLe := fun a b => by unfold msgLe; infer_instance

instance : IsTotal MessageRow msgLe where
  total a b := by
    rcases Nat.lt_trichotomy a.timestamp b.timestamp with h | h | h
    · exact Or.inl (Or.inl h)
    · rcases Nat.le_total a.id b.id with h2 | h2
      · exact Or.inl (Or.inr ⟨h, h2⟩)
      · exact Or.inr (Or.inr ⟨h.symm, h2⟩)
    · exact Or.inr (Or.inl h)

instance : IsTrans MessageRow msgLe where
  trans a b c hab hbc := by
    rcases hab with h1 | ⟨e1, i1⟩
    · rcases hbc with h2 | ⟨e2, _⟩
      · exact Or.inl (h1.trans h2)
      · exact Or.inl (e2 ▸ h1)
    · rcases hbc with h2 | ⟨e2, i2⟩
      · exact Or.inl (e1 ▸ h2)
      · exact Or.inr ⟨e1.trans e2, i1.trans i2⟩

/-- The rows of one session in the order the history query returns them. -/
def historyRows (db : DB) (session_id : String) : List MessageRow :=
  (db.conversations.filter (fun m => m.session_id = session_id)).insertionSort msgLe

/-- `ConversationRepository.get_conversation_history`: empty id returns `[]`;
otherwise `SELECT role, content, timestamp ... ORDER BY timestamp ASC`, with
`LIMIT` added only when the Python value `limit` is truthy (so `None` and `0`
both mean "no limit"; SQLite ignores a negative limit as well).  The default
argument is 100. -/
def get_conversation_history (db : DB) (session_id : String)
    (limit : Option Int := some 100) : List HistoryEntry :=
  if session_id = "" then []
  else
    let sorted := historyRows db session_id
    let limited :=
      match limit with
      | none => sorted
      | some l => if l = 0 then sorted
                  else if l < 0 then sorted
                  else sorted.take l.toNat
    limited.map fun m =>
      { role := m.role, content := m.content, timestamp := m.timestamp }

/-- `ConversationRepository.clear_session`: rejects an empty id, then deletes
all the session's messages and its session row in one transaction. -/
def clear_session (db : DB) (session_id : String) : Except DBError DB :=
  if session_id = "" then
    .error (.invalidArgument "Session ID cannot be empty")
  else
    .ok { db with
          sessions := db.sessions.filter (fun r => ¬ r.session_id = session_id),
          conversations :=
            db.conversations.filter (fun m => ¬ m.session_id = session_id) }

/-- Order in which `ORDER BY s.created_at DESC` yields session rows
(ties keep table order: modelled by the stability of insertion sort). -/
def sessLe (a b : SessionRow) : Prop := b.created_at ≤ a.created_at

instance : DecidableRel sessLe := fun a b => by unfold sessLe; infer_instance

instance : IsTotal SessionRow sessLe where
  total a b := (Nat.le_total b.created_at a.created_at).imp id id

instance : IsTrans SessionRow sessLe where
  trans _ _ _ hab hbc := Nat.le_trans hbc hab

/-- Number of messages of a session (the `COUNT(c.id)` of the LEFT JOIN). -/
def messageCount (db : DB) (session_id : String) : Nat :=
  (db.conversations.filter (fun m => m.session_id = session_id)).length

/-- `ConversationRepository.get_all_sessions`: every session row with its
computed message count, ordered by `created_at` descending. -/
def get_all_sessions (db : DB) : List Session :=
  (db.sessions.insertionSort sessLe).map fun r =>
    { session_id := r.session_id,
      session_name := displayName r.session_name r.session_id,
      created_at := toString r.created_at,
      updated_at := toString r.updated_at,
      message_count := messageCount db r.session_id }

/-! ## The Gemini client (src/cs/ai/gemini_client.py)

The external AI calls are modelled by explicit result parameters:
`Except String String` for the streaming exchange (error = the exception's
text; ok = the accumulated `full_response`) and `Option String` for the
title-generation call (`none` = the call raised; `some t` = the response
with `response.text = t`, where `t = ""` stands for a falsy text). -/

/-- Python `str.split()` with no separator argument: split on runs of
whitespace, dropping empty pieces (structural recursion on the character
list; `cur` accumulates the current word reversed). -/
def pySplitAux : List Char → List Char → List String
  | [], [] => []
  | [], cur => [String.mk cur.reverse]
  | c :: cs, cur =>
    if c.isWhitespace then
      match cur with
      | [] => pySplitAux cs []
      | _ => String.mk cur.reverse :: pySplitAux cs []
    else pySplitAux cs (c :: cur)

/-- Python `user_input.split()`. -/
def pySplit (s : String) : List String := pySplitAux s.toList []

/-- Python `" ".join(words)`. -/
def joinWords : List String → String
  | [] => ""
  | [w] => w
  | w :: ws => w ++ " " ++ joinWords ws

/-- `GeminiClient._fallback_session_name`: the first three
whitespace-separated words of the input, with an ellipsis when the input
has more than three words. -/
def fallback_session_name (user_input : String) : String :=
  joinWords ((pySplit user_input).take 3) ++
    (if (pySplit user_input).length > 3 then "..." else "")

/-- The quote characters stripped by `replace('"', '').replace("'", "")`. -/
def isQuoteChar (c : Char) : Bool := c = Char.ofNat 34 ∨ c = Char.ofNat 39

/-- The sanitisation applied to the title-call response text: `strip()`,
remove quote characters, truncate to 47 chars + `"..."` when longer than 50. -/
def sanitizeTitle (txt : String) : String :=
  let s1 := String.mk (txt.trim.toList.filter (fun c => ¬ isQuoteChar c))
  if s1.length > 50 then s1.take 47 ++ "..." else s1

/-- `GeminiClient.generate_session_name`: empty input or response yields the
literal `"New Conversation"`; a failed or empty-text title call, or a
sanitised title that comes out empty, falls back to
`fallback_session_name`. -/
def generate_session_name (titleResult : Option String)
    (user_input ai_response : String) : String :=
  if user_input = "" ∨ ai_response = "" then "New Conversation"
  else
    match titleResult with
    | none => fallback_session_name user_input
    | some txt =>
      if txt = "" then fallback_session_name user_input
      else
        let s := sanitizeTitle txt
        if s = "" then fallback_session_name user_input else s

/-! ## The Message Handler (src/cs/chat/services.py)

`send_message` builds the request from a read-only history fetch, then runs
the streaming exchange inside one `try`: on any exception from the model
call or from consuming the stream it returns the error string (nothing was
persisted yet).  On success it persists the user turn then the assistant
turn, re-fetches the history with the default limit, and when exactly two
messages are stored it generates a session name and, when that name is
truthy, stores it.  Console rendering and token counting are read-only and
not modelled. -/

/-- Result of `MessageHandler.send_message`: the state after the call and
the returned string. -/
structure SendResult where
  db : DB
  response : String
deriving Repr, DecidableEq

/-- `MessageHandler.send_message`. -/
def send_message (db : DB) (now : Nat) (session_id user_input : String)
    (streamResult : Except String String) (titleResult : Option String) :
    SendResult :=
  match streamResult with
  | .error e => { db := db, response := "Error getting AI response: " ++ e }
  | .ok full_response =>
    let ai_response := full_response
    match add_message db now session_id "user" (some user_input) with
    | .error _ => { db := db, response := "Error getting AI response: error" }
    | .ok db1 =>
      match add_message db1 now session_id "assistant" (some ai_response) with
      | .error _ => { db := db1, response := "Error getting AI response: error" }
      | .ok db2 =>
        let history := get_conversation_history db2 session_id
        if history.length = 2 then
          let session_name := generate_session_name titleResult user_input ai_response
          if ¬ session_name = "" then
            match update_session_name db2 now session_id session_name with
            | .ok db3 => { db := db3, response := ai_response }
            | .error _ => { db := db2, response := "Error getting AI response: error" }
          else { db := db2, response := ai_response }
        else { db := db2, response := ai_response }

/-- The stored (raw) session name of a session: `none` when the session row
is absent, `some stored` otherwise (`stored = none` is a SQL NULL name). -/
def nameOf (db : DB) (session_id : String) : Option (Option String) :=
  (db.sessions.find? (fun r => r.session_id = session_id)).map
    (fun r => r.session_name)

/-- One `send_message` exchange on a fixed session: timestamp, user input and
the two external-call results. -/
structure Exchange where
  now : Nat
  input : String
  streamResult : Except String String
  titleResult : Option String
deriving Repr

/-- Run a sequence of `send_message` calls on one session. -/
def runSession (session_id : String) (db : DB) (xs : List Exchange) : DB :=
  xs.foldl
    (fun d x => (send_message d x.now session_id x.input x.streamResult x.titleResult).db)
    db

/-! ## Repository operation sequences (reachable storage states) -/

/-- One repository call, with its wall-clock time where the source uses
`CURRENT_TIMESTAMP`. -/
inductive Op where
  | create (now : Nat) (id : String) (name : Option String)
  | rename (now : Nat) (id name : String)
  | add (now : Nat) (id role : String) (content : Option String)
  | clear (id : String)
deriving Repr

/-- A failed call raises to the caller with the transaction rolled back, so
the state is unchanged. -/
def orKeep (db : DB) : Except DBError DB → DB
  | .ok d => d
  | .error _ => db

/-- Apply one repository call to the database. -/
def applyOp (db : DB) : Op → DB
  | .create now id name => orKeep db (create_session db now id name)
  | .rename now id name => orKeep db (update_session_name db now id name)
  | .add now id role content => orKeep db (add_message db now id role content)
  | .clear id => orKeep db (clear_session db id)

/-- The storage state reached from a fresh database by a call sequence. -/
def runOps (ops : List Op) : DB := ops.foldl applyOp emptyDB

/-! ## General list lemmas -/

section SortLemmas

variable {α : Type _} (r : α → α → Prop) [DecidableRel r]

lemma orderedInsert_all (a : α) :
    ∀ l : List α, (∀ b ∈ l, r a b) → l.orderedInsert r a = a :: l
  | [], _ => rfl
  | b :: l, h => by
    simp [List.orderedInsert, h b (List.mem_cons_self b l)]

lemma filter_orderedInsert [IsTrans α r] (p : α → Bool) (a : α) :
    ∀ l : List α, l.Sorted r →
      (l.orderedInsert r a).filter p =
        if p a then (l.filter p).orderedInsert r a else l.filter p := by
  intro l
  induction l with
  | nil =>
    intro _
    by_cases hpa : p a <;> simp [List.orderedInsert, List.filter, hpa]
  | cons b l ih =>
    intro hs
    have hsl : l.Sorted r := hs.of_cons
    have hbl : ∀ c ∈ l, r b c := List.rel_of_sorted_cons hs
    by_cases hab : r a b
    · rw [List.orderedInsert_of_le r l hab]
      by_cases hpa : p a
      · by_cases hpb : p b
        · rw [List.filter_cons_of_pos hpa, List.filter_cons_of_pos hpb, if_pos hpa,
            List.orderedInsert_of_le r _ hab]
        · rw [List.filter_cons_of_pos hpa, List.filter_cons_of_neg hpb, if_pos hpa,
            orderedInsert_all r a (l.filter p)]
          intro c hc
          exact IsTrans.trans _ _ _ hab (hbl c (List.mem_of_mem_filter hc))
      · rw [List.filter_cons_of_neg hpa, if_neg hpa]
    · have hoi : (b :: l).orderedInsert r a = b :: l.orderedInsert r a := by
        simp [List.orderedInsert, hab]
      rw [hoi]
      by_cases hpa : p a
      · by_cases hpb : p b
        · have hoi2 : (b :: l.filter p).orderedInsert r a
              = b :: (l.filter p).orderedInsert r a := by
            simp [List.orderedInsert, hab]
          rw [List.filter_cons_of_pos hpb, List.filter_cons_of_pos hpb, if_pos hpa,
            hoi2, ih hsl, if_pos hpa]
        · rw [List.filter_cons_of_neg hpb, List.filter_cons_of_neg hpb, if_pos hpa,
            ih hsl, if_pos hpa]
      · rw [if_neg hpa, List.filter_cons, List.filter_cons, ih hsl, if_neg hpa]

lemma filter_insertionSort [IsTotal α r] [IsTrans α r] (p : α → Bool) :
    ∀ l : List α, (l.insertionSort r).filter p = (l.filter p).insertionSort r
  | [] => rfl
  | a :: l => by
    have h1 : (a :: l).insertionSort r = (l.insertionSort r).orderedInsert r a := rfl
    rw [h1, filter_orderedInsert r p a _ (List.sorted_insertionSort r l)]
    by_cases hpa : p a
    · rw [if_pos hpa, List.filter_cons_of_pos hpa, filter_insertionSort p l]
      rfl
    · rw [if_neg hpa, List.filter_cons_of_neg hpa, filter_insertionSort p l]

end SortLemmas

lemma map_filter_comm {α β : Type _} (f : α → β) (p : β → Bool) (q : α → Bool)
    (h : ∀ a, p (f a) = q a) :
    ∀ l : List α, (l.filter q).map f = (l.map f).filter p
  | [] => rfl
  | a :: l => by
    by_cases hq : q a
    · rw [List.filter_cons_of_pos hq, List.map_cons, List.map_cons,
        List.filter_cons_of_pos (by rw [h a]; exact hq), map_filter_comm f p q h l]
    · rw [List.filter_cons_of_neg hq, List.map_cons,
        List.filter_cons_of_neg (by rw [h a]; simpa using hq), map_filter_comm f p q h l]

/-! ## Characterisation of `add_message` -/

lemma add_message_eq_of_valid (db : DB) (now : Nat) (sid role c : String)
    (h1 : ¬ sid = "") (h2 : role = "user" ∨ role = "assistant") :
    add_message db now sid role (some c) =
      .ok { sessions :=
              if db.sessions.any (fun r => r.session_id = sid) then db.sessions
              else db.sessions ++
                [{ session_id := sid, session_name := none,
                   created_at := now, updated_at := now }],
            conversations := db.conversations ++
              [{ id := db.nextId, session_id := sid, role := role,
                 content := c, timestamp := now }],
            nextId := db.nextId + 1 } := by
  rcases h2 with h | h <;> subst h <;> simp [add_message, h1]

lemma add_message_error_of_bad_role (db : DB) (now : Nat) (sid bad c : String)
    (hsid : ¬ sid = "") (hb0 : ¬ bad = "") (hb1 : ¬ bad = "user")
    (hb2 : ¬ bad = "assistant") :
    add_message db now sid bad (some c) =
      .error (.checkViolation "CHECK constraint failed: role IN (user, assistant)") := by
  simp [add_message, hsid, hb0, hb1, hb2]

/-! ## Invariants of reachable storage states -/

/-- Message ids are strictly increasing in table order and below `nextId`. -/
def ConvIdsOk (db : DB) : Prop :=
  db.conversations.Pairwise (fun a b => a.id < b.id) ∧
    ∀ m ∈ db.conversations, m.id < db.nextId

/-- Every stored message role is `user` or `assistant`. -/
def RolesOk (db : DB) : Prop :=
  ∀ m ∈ db.conversations, m.role = "user" ∨ m.role = "assistant"

lemma convIdsOk_empty : ConvIdsOk emptyDB := ⟨List.Pairwise.nil, by simp [emptyDB]⟩

lemma rolesOk_empty : RolesOk emptyDB := by simp [RolesOk, emptyDB]

lemma convIdsOk_applyOp {db : DB} (h : ConvIdsOk db) (op : Op) :
    ConvIdsOk (applyOp db op) := by
  obtain ⟨hp, hb⟩ := h
  cases op with
  | create now id name =>
    simp only [applyOp, create_session]
    split_ifs <;> exact ⟨hp, hb⟩
  | rename now id name =>
    simp only [applyOp, update_session_name]
    split_ifs <;> exact ⟨hp, hb⟩
  | add now id role content =>
    simp only [applyOp]
    cases content with
    | none =>
      have : add_message db now id role none =
          .error (.invalidArgument "Session ID, role, and content are required") := by
        simp [add_message]
      rw [this]
      exact ⟨hp, hb⟩
    | some c =>
      by_cases hid : id = ""
      · simp only [add_message, hid]
        simp only [true_or, if_pos rfl, eq_self_iff_true]
        exact ⟨hp, hb⟩
      by_cases hvalid : role = "user" ∨ role = "assistant"
      · rw [add_message_eq_of_valid db now id role c hid hvalid]
        simp only [orKeep]
        constructor
        · rw [List.pairwise_append]
          refine ⟨hp, by simp, ?_⟩
          intro a ha m hm
          simp only [List.mem_singleton] at hm
          subst hm
          exact hb a ha
        · intro m hm
          rcases List.mem_append.mp hm with hmem | hmem
          · exact (hb m hmem).trans (Nat.lt_succ_self _)
          · simp only [List.mem_singleton] at hmem
            subst hmem
            exact Nat.lt_succ_self _
      · by_cases hrole0 : role = ""
        · simp only [add_message, hrole0]
          simp only [eq_self_iff_true, true_or, or_true, if_pos]
          exact ⟨hp, hb⟩
        · have hb1 : ¬ role = "user" := fun hh => hvalid (Or.inl hh)
          have hb2 : ¬ role = "assistant" := fun hh => hvalid (Or.inr hh)
          rw [add_message_error_of_bad_role db now id role c hid hrole0 hb1 hb2]
          exact ⟨hp, hb⟩
  | clear id =>
    simp only [applyOp, clear_session]
    split_ifs
    · exact ⟨hp, hb⟩
    · refine ⟨List.Pairwise.sublist (List.filter_sublist _) hp, ?_⟩
      intro m hm
      exact hb m (List.mem_of_mem_filter hm)

lemma rolesOk_applyOp {db : DB} (h : RolesOk db) (op : Op) :
    RolesOk (applyOp db op) := by
  cases op with
  | create now id name =>
    simp only [applyOp, create_session]
    split_ifs <;> exact h
  | rename now id name =>
    simp only [applyOp, update_session_name]
    split_ifs <;> exact h
  | add now id role content =>
    simp only [applyOp]
    cases content with
    | none =>
      have : add_message db now id role none =
          .error (.invalidArgument "Session ID, role, and content are required") := by
        simp [add_message]
      rw [this]
      exact h
    | some c =>
      by_cases hid : id = ""
      · simp only [add_message, hid]
        simp only [true_or, if_pos rfl, eq_self_iff_true]
        exact h
      by_cases hvalid : role = "user" ∨ role = "assistant"
      · rw [add_message_eq_of_valid db now id role c hid hvalid]
        simp only [orKeep]
        intro m hm
        rcases List.mem_append.mp hm with hmem | hmem
        · exact h m hmem
        · simp only [List.mem_singleton] at hmem
          subst hmem
          exact hvalid
      · by_cases hrole0 : role = ""
        · simp only [add_message, hrole0]
          simp only [eq_self_iff_true, true_or, or_true, if_pos]
          exact h
        · have hb1 : ¬ role = "user" := fun hh => hvalid (Or.inl hh)
          have hb2 : ¬ role = "assistant" := fun hh => hvalid (Or.inr hh)
          rw [add_message_error_of_bad_role db now id role c hid hrole0 hb1 hb2]
          exact h
  | clear id =>
    simp only [applyOp, clear_session]
    split_ifs
    · exact h
    · intro m hm
      exact h m (List.mem_of_mem_filter hm)

lemma foldl_preserve {P : DB → Prop}
    (hstep : ∀ db op, P db → P (applyOp db op)) :
    ∀ (ops : List Op) (db : DB), P db → P (ops.foldl applyOp db)
  | [], _, h => h
  | op :: ops, db, h => foldl_preserve hstep ops _ (hstep db op h)

lemma convIdsOk_runOps (ops : List Op) : ConvIdsOk (runOps ops) :=
  @foldl_preserve ConvIdsOk (fun _ op h => convIdsOk_applyOp h op) ops emptyDB
    convIdsOk_empty

lemma rolesOk_runOps (ops : List Op) : RolesOk (runOps ops) :=
  @foldl_preserve RolesOk (fun _ op h => rolesOk_applyOp h op) ops emptyDB
    rolesOk_empty

/-! ## History lemmas -/

lemma length_historyRows (db : DB) (sid : String) :
    (historyRows db sid).length = messageCount db sid := by
  simp [historyRows, messageCount, List.length_insertionSort]

lemma history_default_length (db : DB) (sid : String) (hsid : ¬ sid = "") :
    (get_conversation_history db sid).length = min 100 (messageCount db sid) := by
  simp [get_conversation_history, hsid, length_historyRows]

/-- C1: for every sequence of repository calls (in particular every sequence
of `add_message` calls on one session), the history query returns exactly
the session's stored messages, ordered by timestamp ascending with ties
broken by ascending storage-assigned id, projected to
`(role, content, timestamp)`. -/
theorem claim_C1_history_ordered (ops : List Op) (sid : String) (hsid : ¬ sid = "") :
    List.Perm (historyRows (runOps ops) sid)
      ((runOps ops).conversations.filter (fun m => m.session_id = sid))
    ∧ (historyRows (runOps ops) sid).Pairwise
        (fun a b => a.timestamp < b.timestamp ∨
          (a.timestamp = b.timestamp ∧ a.id < b.id))
    ∧ get_conversation_history (runOps ops) sid none =
        (historyRows (runOps ops) sid).map
          (fun m => { role := m.role, content := m.content, timestamp := m.timestamp }) := by
  have hperm : List.Perm (historyRows (runOps ops) sid)
      ((runOps ops).conversations.filter (fun m => m.session_id = sid)) :=
    List.perm_insertionSort msgLe _
  refine ⟨hperm, ?_, ?_⟩
  · have hsorted : (historyRows (runOps ops) sid).Pairwise msgLe :=
      List.sorted_insertionSort msgLe _
    have hids : ((runOps ops).conversations.filter
        (fun m => m.session_id = sid)).Pairwise (fun a b => a.id < b.id) :=
      List.Pairwise.sublist (List.filter_sublist _) (convIdsOk_runOps ops).1
    have hne : (historyRows (runOps ops) sid).Pairwise
        (fun a b => ¬ a.id = b.id) := by
      refine (hperm.pairwise_iff ?_).mpr (hids.imp ?_)
      · intro x y hxy
        exact fun e => hxy e.symm
      · intro a b hlt e
        exact Nat.lt_irrefl _ (e ▸ hlt)
    refine (hsorted.and hne).imp ?_
    rintro a b ⟨hle, hne2⟩
    rcases hle with h | ⟨he, hid⟩
    · exact Or.inl h
    · exact Or.inr ⟨he, Nat.lt_of_le_of_ne hid hne2⟩
  · simp [get_conversation_history, hsid]

theorem claim_C1_witness :
    List.Perm (historyRows (runOps [.add 0 "s" "user" (some "x")]) "s")
      ((runOps [.add 0 "s" "user" (some "x")]).conversations.filter
        (fun m => m.session_id = "s"))
    ∧ (historyRows (runOps [.add 0 "s" "user" (some "x")]) "s").Pairwise
        (fun a b => a.timestamp < b.timestamp ∨
          (a.timestamp = b.timestamp ∧ a.id < b.id))
    ∧ get_conversation_history (runOps [.add 0 "s" "user" (some "x")]) "s" none =
        (historyRows (runOps [.add 0 "s" "user" (some "x")]) "s").map
          (fun m => { role := m.role, content := m.content, timestamp := m.timestamp }) :=
  claim_C1_history_ordered [.add 0 "s" "user" (some "x")] "s" (by decide)

/-- C2 counterexample: the claim fails for the explicitly given limit 0,
which is ≥ 0.  Python `if limit:` is false for 0, so no LIMIT clause is
added and a session holding one message returns that message rather than at
most 0. -/
theorem claim_C2_counterexample :
    (0 : Int) ≥ 0 ∧
      ¬ ((get_conversation_history (runOps [.add 0 "s" "user" (some "x")]) "s"
          (some 0)).length ≤ 0) := by
  constructor
  · decide
  · decide

/-- C2 amended: for every explicitly given limit ≥ 1 the history holds at
most `limit` messages, and with no explicit limit the default limit of 100
applies (an explicit limit of 0 is treated as unbounded, see the
counterexample). -/
theorem claim_C2_amended (db : DB) (sid : String) (l : Int) (hl : 1 ≤ l) :
    (get_conversation_history db sid (some l)).length ≤ l.toNat
    ∧ (get_conversation_history db sid).length ≤ 100 := by
  constructor
  · by_cases hsid : sid = ""
    · simp [get_conversation_history, hsid]
    · have h0 : ¬ l = 0 := by omega
      have hneg : ¬ l < 0 := by omega
      simp [get_conversation_history, hsid, h0, hneg]
  · by_cases hsid : sid = ""
    · simp [get_conversation_history, hsid]
    · simp [get_conversation_history, hsid]

theorem claim_C2_witness :
    (get_conversation_history emptyDB "s" (some 5)).length ≤ (5 : Int).toNat
    ∧ (get_conversation_history emptyDB "s").length ≤ 100 :=
  claim_C2_amended emptyDB "s" 5 (by decide)

/-- C3: if the external model call or the consumption of its stream raises,
`send_message` returns the error-carrying string instead of raising, and the
stored state is exactly the state before the call (no user or assistant
message is persisted). -/
theorem claim_C3_error_containment (db : DB) (now : Nat) (sid input e : String)
    (title : Option String) :
    (send_message db now sid input (.error e) title).db = db
    ∧ (send_message db now sid input (.error e) title).response
        = "Error getting AI response: " ++ e :=
  ⟨rfl, rfl⟩

/-! ## Auto-naming lemmas (claim C4) -/

lemma add_message_ok_props (db : DB) (now : Nat) (sid role c : String)
    (hsid : ¬ sid = "") (hrole : role = "user" ∨ role = "assistant") :
    ∃ db', add_message db now sid role (some c) = .ok db'
      ∧ db'.conversations = db.conversations ++
          [{ id := db.nextId, session_id := sid, role := role,
             content := c, timestamp := now }]
      ∧ db'.sessions.any (fun r => r.session_id = sid) = true
      ∧ (db.sessions.any (fun r => r.session_id = sid) = true →
          db'.sessions = db.sessions)
      ∧ (∀ p : SessionRow → Bool,
          (db.sessions.find? p).isSome → db'.sessions.find? p = db.sessions.find? p) := by
  refine ⟨_, add_message_eq_of_valid db now sid role c hsid hrole, rfl, ?_, ?_, ?_⟩
  · by_cases h : db.sessions.any (fun r => r.session_id = sid) <;> simp [h]
  · intro h
    simp [h]
  · intro p hp
    by_cases h : db.sessions.any (fun r => r.session_id = sid)
    · simp [h]
    · obtain ⟨a, ha⟩ := Option.isSome_iff_exists.mp hp
      simp [h, List.find?_append, ha]

lemma find?_update_name (s : List SessionRow) (now : Nat) (sid nm : String)
    (hany : s.any (fun r => r.session_id = sid) = true) :
    ((s.map fun r => if r.session_id = sid then
        { r with session_name := some nm, updated_at := now } else r).find?
      (fun r => r.session_id = sid)).map (fun r => r.session_name)
      = some (some nm) := by
  rw [List.find?_map]
  have hfn : ((fun r : SessionRow => decide (r.session_id = sid)) ∘
      (fun r => if r.session_id = sid then
        { r with session_name := some nm, updated_at := now } else r))
      = fun r => decide (r.session_id = sid) := by
    funext r
    by_cases h : r.session_id = sid <;> simp [h]
  rw [hfn]
  obtain ⟨r1, hr1⟩ := Option.isSome_iff_exists.mp
    (List.find?_isSome.mpr (List.any_eq_true.mp hany))
  have hp1 := List.find?_some hr1
  simp only [decide_eq_true_eq] at hp1
  rw [hr1]
  simp [hp1]

lemma send_message_ok_cases (db : DB) (now : Nat) (sid input resp : String)
    (title : Option String) (hsid : ¬ sid = "") :
    messageCount (send_message db now sid input (.ok resp) title).db sid
        = messageCount db sid + 2
    ∧ ((messageCount db sid = 0 ∧ ¬ generate_session_name title input resp = "") →
        nameOf (send_message db now sid input (.ok resp) title).db sid
          = some (some (generate_session_name title input resp)))
    ∧ (1 ≤ messageCount db sid →
        ∀ v, nameOf db sid = some v →
          nameOf (send_message db now sid input (.ok resp) title).db sid = some v) := by
  set nm := generate_session_name title input resp with hnmeq
  obtain ⟨db1, h1, hc1, hany1, _, hfind1⟩ :=
    add_message_ok_props db now sid "user" input hsid (Or.inl rfl)
  obtain ⟨db2, h2, hc2, hany2, hsess2, _⟩ :=
    add_message_ok_props db1 now sid "assistant" resp hsid (Or.inr rfl)
  have hsess21 : db2.sessions = db1.sessions := hsess2 hany1
  have hcount2 : messageCount db2 sid = messageCount db sid + 2 := by
    simp [messageCount, hc2, hc1, List.filter_append]
  have hlen2 : (get_conversation_history db2 sid).length
      = min 100 (messageCount db sid + 2) := by
    rw [history_default_length db2 sid hsid, hcount2]
  have hmain : (send_message db now sid input (.ok resp) title).db
      = if (get_conversation_history db2 sid).length = 2 ∧ ¬ nm = "" then
          { db2 with sessions := db2.sessions.map fun r =>
              if r.session_id = sid then
                { r with session_name := some nm, updated_at := now }
              else r }
        else db2 := by
    simp only [send_message, h1, h2]
    by_cases hb : (get_conversation_history db2 sid).length = 2
    · by_cases hnm : nm = ""
      · simp [hb, ← hnmeq, hnm]
      · have hupd : update_session_name db2 now sid nm = .ok
            { db2 with sessions := db2.sessions.map fun r =>
                if r.session_id = sid then
                  { r with session_name := some nm, updated_at := now }
                else r } := by
          simp [update_session_name, hsid, hnm]
        simp [hb, ← hnmeq, hnm, hupd]
    · simp [hb]
  refine ⟨?_, ?_, ?_⟩
  · rw [hmain]
    by_cases hcase : (get_conversation_history db2 sid).length = 2 ∧ ¬ nm = ""
    · rw [if_pos hcase]
      simpa [messageCount] using hcount2
    · rw [if_neg hcase]
      exact hcount2
  · rintro ⟨hzero, hnm⟩
    have hb : (get_conversation_history db2 sid).length = 2 := by
      rw [hlen2, hzero]
      decide
    rw [hmain, if_pos ⟨hb, hnm⟩]
    simp only [nameOf, hsess21]
    exact find?_update_name db1.sessions now sid nm hany1
  · intro hone v hv
    have hb : ¬ ((get_conversation_history db2 sid).length = 2 ∧ ¬ nm = "") := by
      rintro ⟨hl2, -⟩
      rw [hlen2, Nat.min_def] at hl2
      split_ifs at hl2 <;> omega
    rw [hmain, if_neg hb]
    have hvsome : (db.sessions.find? (fun r => r.session_id = sid)).isSome := by
      simp only [nameOf] at hv
      rcases hfind : db.sessions.find? (fun r => r.session_id = sid) with _ | r
      · rw [hfind] at hv
        simp at hv
      · simp [hfind]
    simp only [nameOf, hsess21, hfind1 _ hvsome]
    simpa [nameOf] using hv

lemma runSession_cons (sid : String) (db : DB) (x : Exchange) (xs : List Exchange) :
    runSession sid db (x :: xs) =
      runSession sid
        (send_message db x.now sid x.input x.streamResult x.titleResult).db xs := rfl

lemma runSession_preserves_name (sid : String) (hsid : ¬ sid = "")
    (xs : List Exchange) :
    ∀ (db : DB) (v : Option String),
      1 ≤ messageCount db sid → nameOf db sid = some v →
      nameOf (runSession sid db xs) sid = some v := by
  induction xs with
  | nil =>
    intro db v _ hv
    exact hv
  | cons x xs ih =>
    intro db v hc hv
    rw [runSession_cons]
    rcases hres : x.streamResult with e | resp
    · exact ih db v hc hv
    · obtain ⟨hcnt, _, hpres⟩ :=
        send_message_ok_cases db x.now sid x.input resp x.titleResult hsid
      exact ih _ v (by rw [hcnt]; omega) (hpres hc v hv)

/-- C4 counterexample: on the first exchange of session `s1` with
whitespace-only user input `" "` and a failed title-generation call, the
stored history has exactly two messages and the fallback title is the empty
string, so `update_session_name` is skipped (`if session_name:` is falsy)
and the session's stored name remains NULL — the claim's "the name is
still set" is false here. -/
theorem claim_C4_counterexample :
    (get_conversation_history
        (send_message emptyDB 0 "s1" " " (.ok "hi") none).db "s1" none).length = 2
    ∧ generate_session_name none " " "hi" = ""
    ∧ nameOf (send_message emptyDB 0 "s1" " " (.ok "hi") none).db "s1" = some none := by
  refine ⟨?_, ?_, ?_⟩ <;> decide

/-- C4 amended: for a session with no stored messages, `send_message`
updates the session name exactly once — on the exchange that makes the
stored history contain exactly two messages — setting it to the generated
(or fallback) title, and no later exchange changes it again, provided that
title is non-empty; when title generation fails, the name used is the first
three words of the user's input, or "New Conversation" when the input (or
response) is empty — and when that fallback is itself empty (whitespace-only
input) the name is not updated at all, per the counterexample. -/
theorem claim_C4_amended (db0 : DB) (now : Nat) (sid input resp : String)
    (title : Option String) (rest : List Exchange)
    (hsid : ¬ sid = "")
    (hfresh : messageCount db0 sid = 0)
    (hnm : ¬ generate_session_name title input resp = "") :
    nameOf (runSession sid (send_message db0 now sid input (.ok resp) title).db rest)
        sid = some (some (generate_session_name title input resp))
    ∧ generate_session_name none input resp
        = (if input = "" ∨ resp = "" then "New Conversation"
           else fallback_session_name input) := by
  obtain ⟨hcnt, hset, _⟩ := send_message_ok_cases db0 now sid input resp title hsid
  constructor
  · exact runSession_preserves_name sid hsid rest _ _
      (by rw [hcnt, hfresh]; omega) (hset ⟨hfresh, hnm⟩)
  · by_cases h : input = "" ∨ resp = ""
    · rw [if_pos h]
      rcases h with h | h <;> simp [generate_session_name, h]
    · rw [if_neg h]
      rcases not_or.mp h with ⟨h1, h2⟩
      simp [generate_session_name, h1, h2]

theorem claim_C4_witness :
    nameOf (runSession "s1"
        (send_message emptyDB 0 "s1" "hello there" (.ok "hi") none).db
        [⟨1, "more", .ok "ok", none⟩]) "s1"
      = some (some (generate_session_name none "hello there" "hi"))
    ∧ generate_session_name none "hello there" "hi"
        = (if "hello there" = "" ∨ "hi" = "" then "New Conversation"
           else fallback_session_name "hello there") :=
  claim_C4_amended emptyDB 0 "s1" "hello there" "hi" none
    [⟨1, "more", .ok "ok", none⟩] (by decide) (by decide) (by decide)

/-- C5: for a session id that holds no session row, a valid `add_message`
call implicitly creates the session row, and `get_session_info` afterwards
returns a non-empty record whose `session_name` equals the session id
(the stored name is NULL and `row[1] or row[0]` falls back to the id). -/
theorem claim_C5_implicit_create (db : DB) (now : Nat) (sid role c : String)
    (hsid : ¬ sid = "") (hrole : role = "user" ∨ role = "assistant")
    (hnew : ∀ r ∈ db.sessions, ¬ r.session_id = sid) :
    ∀ db', add_message db now sid role (some c) = .ok db' →
      get_session_info db' sid = some
        { session_id := sid, session_name := sid,
          created_at := toString now, updated_at := toString now } := by
  intro db' h
  have hany : db.sessions.any (fun r => r.session_id = sid) = false := by
    rcases hval : db.sessions.any (fun r => r.session_id = sid) with _ | _
    · rfl
    · obtain ⟨r, hrmem, hrp⟩ := List.any_eq_true.mp hval
      simp only [decide_eq_true_eq] at hrp
      exact absurd hrp (hnew r hrmem)
  rw [add_message_eq_of_valid db now sid role c hsid hrole] at h
  rw [hany] at h
  simp only [Bool.false_eq_true, if_false] at h
  injection h with h
  subst h
  have hfnone : db.sessions.find? (fun r => r.session_id = sid) = none :=
    List.find?_eq_none.mpr (by
      intro r hr
      simpa using hnew r hr)
  simp [get_session_info, hsid, List.find?_append, hfnone, displayName]

theorem claim_C5_witness :
    get_session_info
        { sessions := [{ session_id := "s", session_name := none,
                         created_at := 5, updated_at := 5 }],
          conversations := [{ id := 1, session_id := "s", role := "user",
                              content := "x", timestamp := 5 }],
          nextId := 2 } "s"
      = some { session_id := "s", session_name := "s",
               created_at := toString 5, updated_at := toString 5 } :=
  claim_C5_implicit_create emptyDB 5 "s" "user" "x" (by decide) (Or.inl rfl)
    (by simp [emptyDB]) _ rfl

lemma map_session_filter (db dbc : DB) (sid : String)
    (hmc : ∀ q : String, ¬ q = sid → messageCount dbc q = messageCount db q) :
    ∀ l : List SessionRow,
      (l.filter (fun r => ¬ r.session_id = sid)).map (fun r =>
        ({ session_id := r.session_id,
           session_name := displayName r.session_name r.session_id,
           created_at := toString r.created_at,
           updated_at := toString r.updated_at,
           message_count := messageCount dbc r.session_id } : Session))
      = (l.map (fun r =>
          ({ session_id := r.session_id,
             session_name := displayName r.session_name r.session_id,
             created_at := toString r.created_at,
             updated_at := toString r.updated_at,
             message_count := messageCount db r.session_id } : Session))).filter
          (fun s => ¬ s.session_id = sid)
  | [] => rfl
  | a :: l => by
    by_cases ha : a.session_id = sid
    · rw [List.filter_cons_of_neg (by simpa using ha), List.map_cons,
        List.filter_cons_of_neg (by simpa using ha),
        map_session_filter db dbc sid hmc l]
    · rw [List.filter_cons_of_pos (by simpa using ha), List.map_cons,
        List.map_cons, List.filter_cons_of_pos (by simpa using ha),
        map_session_filter db dbc sid hmc l, hmc a.session_id ha]

/-- C6: after `clear_session`, the cleared session's history is empty and
its `get_session_info` is the not-found sentinel, while `get_all_sessions`
returns exactly the other sessions' records — same order, names, and
computed message counts. -/
theorem claim_C6_clear (db : DB) (sid : String) (hsid : ¬ sid = "") :
    ∀ db', clear_session db sid = .ok db' →
      get_conversation_history db' sid none = []
      ∧ get_conversation_history db' sid = []
      ∧ get_session_info db' sid = none
      ∧ get_all_sessions db' = (get_all_sessions db).filter
          (fun s => ¬ s.session_id = sid) := by
  intro db' h
  have hdb' : db' = { db with
      sessions := db.sessions.filter (fun r => ¬ r.session_id = sid),
      conversations := db.conversations.filter (fun m => ¬ m.session_id = sid) } := by
    simp only [clear_session, if_neg (by simpa using hsid)] at h
    exact (Except.ok.inj h).symm
  subst hdb'
  have hnil : (db.conversations.filter (fun m => ¬ m.session_id = sid)).filter
      (fun m => m.session_id = sid) = [] := by
    rw [List.filter_filter]
    refine List.filter_eq_nil_iff.mpr ?_
    intro a _
    simp
  refine ⟨?_, ?_, ?_, ?_⟩
  · simp [get_conversation_history, hsid, historyRows, hnil, List.insertionSort]
  · simp [get_conversation_history, hsid, historyRows, hnil, List.insertionSort]
  · have hfnone : (db.sessions.filter (fun r => ¬ r.session_id = sid)).find?
        (fun r => r.session_id = sid) = none := by
      refine List.find?_eq_none.mpr ?_
      intro r hr
      have := List.of_mem_filter hr
      simpa using this
    simp [get_session_info, hsid, hfnone]
  · have hmc : ∀ q : String, ¬ q = sid →
        messageCount { db with
          sessions := db.sessions.filter (fun r => ¬ r.session_id = sid),
          conversations :=
            db.conversations.filter (fun m => ¬ m.session_id = sid) } q
          = messageCount db q := by
      intro q hq
      simp only [messageCount, List.filter_filter]
      refine congrArg List.length (List.filter_congr ?_)
      intro a _
      by_cases ha : a.session_id = q
      · simp [ha, hq]
      · simp [ha]
    simp only [get_all_sessions]
    rw [← filter_insertionSort sessLe _ db.sessions]
    exact map_session_filter db _ sid hmc (db.sessions.insertionSort sessLe)

theorem claim_C6_witness :
    get_conversation_history
        { sessions := [{ session_id := "b", session_name := none,
                         created_at := 1, updated_at := 1 }],
          conversations := [{ id := 2, session_id := "b", role := "user",
                              content := "y", timestamp := 1 }],
          nextId := 3 } "a" none = []
    ∧ get_conversation_history
        { sessions := [{ session_id := "b", session_name := none,
                         created_at := 1, updated_at := 1 }],
          conversations := [{ id := 2, session_id := "b", role := "user",
                              content := "y", timestamp := 1 }],
          nextId := 3 } "a" = []
    ∧ get_session_info
        { sessions := [{ session_id := "b", session_name := none,
                         created_at := 1, updated_at := 1 }],
          conversations := [{ id := 2, session_id := "b", role := "user",
                              content := "y", timestamp := 1 }],
          nextId := 3 } "a" = none
    ∧ get_all_sessions
        { sessions := [{ session_id := "b", session_name := none,
                         created_at := 1, updated_at := 1 }],
          conversations := [{ id := 2, session_id := "b", role := "user",
                              content := "y", timestamp := 1 }],
          nextId := 3 }
      = (get_all_sessions
          (runOps [.add 0 "a" "user" (some "x"),
                   .add 1 "b" "user" (some "y")])).filter
          (fun s => ¬ s.session_id = "a") :=
  claim_C6_clear
    (runOps [.add 0 "a" "user" (some "x"), .add 1 "b" "user" (some "y")]) "a"
    (by decide) _ rfl

/-- C7: empty identifiers are hard errors on write paths (`add_message`,
`create_session`, `clear_session`, `update_session_name` with either
argument empty raise `ValueError`, and in the `Except` model an error call
returns no new state, so nothing is written), while read paths with an
empty or unknown id return an empty sequence / not-found without raising. -/
theorem claim_C7_empty_ids (db : DB) (now : Nat) (role c nm sid : String)
    (hs : ∀ r ∈ db.sessions, ¬ r.session_id = sid)
    (hm : ∀ m ∈ db.conversations, ¬ m.session_id = sid) :
    add_message db now "" role (some c)
        = .error (.invalidArgument "Session ID, role, and content are required")
    ∧ create_session db now ""
        = .error (.invalidArgument "Session ID cannot be empty")
    ∧ clear_session db ""
        = .error (.invalidArgument "Session ID cannot be empty")
    ∧ update_session_name db now "" nm
        = .error (.invalidArgument "Session ID and name cannot be empty")
    ∧ update_session_name db now sid ""
        = .error (.invalidArgument "Session ID and name cannot be empty")
    ∧ get_conversation_history db "" = []
    ∧ get_session_info db "" = none
    ∧ get_conversation_history db sid = []
    ∧ get_session_info db sid = none := by
  refine ⟨by simp [add_message], by simp [create_session], by simp [clear_session],
    by simp [update_session_name], by simp [update_session_name], ?_, ?_, ?_, ?_⟩
  · simp [get_conversation_history]
  · simp [get_session_info]
  · by_cases hsid : sid = ""
    · simp [get_conversation_history, hsid]
    · have hfil : db.conversations.filter (fun m => m.session_id = sid) = [] :=
        List.filter_eq_nil_iff.mpr (by
          intro a ha
          simpa using hm a ha)
      simp [get_conversation_history, hsid, historyRows, hfil, List.insertionSort]
  · by_cases hsid : sid = ""
    · simp [get_session_info, hsid]
    · have hfnone : db.sessions.find? (fun r => r.session_id = sid) = none :=
        List.find?_eq_none.mpr (by
          intro r hr
          simpa using hs r hr)
      simp [get_session_info, hsid, hfnone]

theorem claim_C7_witness :
    add_message emptyDB 0 "" "user" (some "x")
        = .error (.invalidArgument "Session ID, role, and content are required")
    ∧ create_session emptyDB 0 ""
        = .error (.invalidArgument "Session ID cannot be empty")
    ∧ clear_session emptyDB ""
        = .error (.invalidArgument "Session ID cannot be empty")
    ∧ update_session_name emptyDB 0 "" "n"
        = .error (.invalidArgument "Session ID and name cannot be empty")
    ∧ update_session_name emptyDB 0 "zzz" ""
        = .error (.invalidArgument "Session ID and name cannot be empty")
    ∧ get_conversation_history emptyDB "" = []
    ∧ get_session_info emptyDB "" = none
    ∧ get_conversation_history emptyDB "zzz" = []
    ∧ get_session_info emptyDB "zzz" = none :=
  claim_C7_empty_ids emptyDB 0 "user" "x" "n" "zzz"
    (by simp [emptyDB]) (by simp [emptyDB])

/-- C8: every message stored in any state reachable from a fresh database
has role `user` or `assistant`; an `add_message` call with any other
non-empty role fails with the CHECK-constraint violation (and in the
`Except` model a failing call yields no new state, so no row is stored). -/
theorem claim_C8_role_invariant (ops : List Op) (now : Nat) (sid c bad : String)
    (hsid : ¬ sid = "") (hb0 : ¬ bad = "") (hb1 : ¬ bad = "user")
    (hb2 : ¬ bad = "assistant") (m : MessageRow)
    (hm : m ∈ (runOps ops).conversations) :
    add_message (runOps ops) now sid bad (some c)
        = .error (.checkViolation "CHECK constraint failed: role IN (user, assistant)")
    ∧ (m.role = "user" ∨ m.role = "assistant") :=
  ⟨add_message_error_of_bad_role _ now sid bad c hsid hb0 hb1 hb2,
   rolesOk_runOps ops m hm⟩

theorem claim_C8_witness :
    add_message (runOps [.add 0 "s" "user" (some "x")]) 1 "s" "system" (some "y")
        = .error (.checkViolation "CHECK constraint failed: role IN (user, assistant)")
    ∧ (({ id := 1, session_id := "s", role := "user", content := "x",
          timestamp := 0 } : MessageRow).role = "user"
       ∨ ({ id := 1, session_id := "s", role := "user", content := "x",
            timestamp := 0 } : MessageRow).role = "assistant") :=
  claim_C8_role_invariant [.add 0 "s" "user" (some "x")] 1 "s" "y" "system"
    (by decide) (by decide) (by decide) (by decide) _ (by decide)

/-- C9: a message appended with content equal to the empty string is
returned by `get_conversation_history` as an entry whose `content` field is
exactly the empty string — present in the list, hence distinguishable from
a missing message. -/
theorem claim_C9_empty_roundtrip (db : DB) (now : Nat) (sid : String)
    (hsid : ¬ sid = "") :
    ∀ db', add_message db now sid "assistant" (some "") = .ok db' →
      ({ role := "assistant", content := "", timestamp := now } : HistoryEntry)
        ∈ get_conversation_history db' sid none := by
  intro db' h
  rw [add_message_eq_of_valid db now sid "assistant" "" hsid (Or.inr rfl)] at h
  injection h with h
  subst h
  have hshape : ∀ d : DB, get_conversation_history d sid none
      = (historyRows d sid).map
          (fun m => { role := m.role, content := m.content, timestamp := m.timestamp }) := by
    intro d
    simp [get_conversation_history, hsid]
  rw [hshape]
  refine List.mem_map.mpr
    ⟨{ id := db.nextId, session_id := sid, role := "assistant",
       content := "", timestamp := now }, ?_, rfl⟩
  rw [historyRows, (List.perm_insertionSort msgLe _).mem_iff, List.mem_filter]
  exact ⟨List.mem_append_right _ (List.mem_singleton_self _), by simp⟩

theorem claim_C9_witness :
    ({ role := "assistant", content := "", timestamp := 7 } : HistoryEntry)
      ∈ get_conversation_history
          { sessions := [{ session_id := "s", session_name := none,
                           created_at := 7, updated_at := 7 }],
            conversations := [{ id := 1, session_id := "s", role := "assistant",
                                content := "", timestamp := 7 }],
            nextId := 2 } "s" none :=
  claim_C9_empty_roundtrip emptyDB 7 "s" (by decide) _ rfl

/-- C10: `get_session_info` always reports `message_count = 0` (the
dataclass default — it never counts messages, however many are stored),
while `get_all_sessions` computes the real per-session count. -/
theorem claim_C10_message_count (db : DB) (sid : String) (s : Session)
    (hs : get_session_info db sid = some s) (t : Session)
    (ht : t ∈ get_all_sessions db) :
    s.message_count = 0 ∧ t.message_count = messageCount db t.session_id := by
  constructor
  · by_cases hsid : sid = ""
    · simp [get_session_info, hsid] at hs
    · simp only [get_session_info, if_neg hsid] at hs
      obtain ⟨r, _, hr⟩ := Option.map_eq_some'.mp hs
      rw [← hr]
  · simp only [get_all_sessions] at ht
    obtain ⟨r, _, hr⟩ := List.mem_map.mp ht
    rw [← hr]

theorem claim_C10_witness :
    ({ session_id := "s", session_name := "s", created_at := toString 0,
       updated_at := toString 0 } : Session).message_count = 0
    ∧ ({ session_id := "s", session_name := "s", created_at := toString 0,
         updated_at := toString 0, message_count := 2 } : Session).message_count
      = messageCount
          (runOps [.add 0 "s" "user" (some "x"), .add 1 "s" "assistant" (some "y")])
          ({ session_id := "s", session_name := "s", created_at := toString 0,
             updated_at := toString 0, message_count := 2 } : Session).session_id :=
  claim_C10_message_count
    (runOps [.add 0 "s" "user" (some "x"), .add 1 "s" "assistant" (some "y")])
    "s" _ (by decide) _ (by decide)
